import Mathlib

set_option maxRecDepth 8000

/-!
Verification of the furniture-production system (FastAPI + SQLAlchemy + PostgreSQL).

The data model (src/app/models.py) is embedded as plain Lean structures; the
relational store is a record of lists of rows.  SQL `Numeric` columns and Python
`Decimal` values are embedded as exact rationals (`ℚ`): PostgreSQL `numeric`
arithmetic and Python `Decimal` arithmetic are exact on all values that occur
here.  Python `float` (IEEE-754 binary64) values are embedded as the exact
rationals they denote, with `roundDouble` performing the round-to-nearest,
ties-to-even conversion of a real (rational) number to the nearest binary64
value; binary64 addition of `a` and `b` is `roundDouble (a + b)`.

Endpoints (src/app/main.py) become pure functions from a `Store` (and request
data) to a response value; mutating endpoints also return the new `Store`.
`db.query(...).order_by(col)` is embedded as `List.insertionSort` on the row
list, `db.get(Model, id)` as `List.find?` on the id, and a unique-constraint
violation at `db.commit()` as an explicit check of the declared constraints,
returning the handler's error response with the store unchanged (rollback).
-/

namespace Furniture

/-- Row of table `product_type` (src/app/models.py): unique `name`,
`coefficient : Numeric(6,2)`. -/
structure ProductType where
  id : ℤ
  name : String
  coefficient : ℚ
deriving DecidableEq, Repr

/-- Row of table `material_type` (src/app/models.py): unique `name`,
`loss_percent : Numeric(5,4)` stored as a fraction (0.05 = 5%). -/
structure MaterialType where
  id : ℤ
  name : String
  loss_percent : ℚ
deriving DecidableEq, Repr

/-- Row of table `workshop_type` (src/app/models.py): unique `name`. -/
structure WorkshopType where
  id : ℤ
  name : String
deriving DecidableEq, Repr

/-- Row of table `workshop` (src/app/models.py): unique `name`, foreign key to
`workshop_type`, `workers_required : Integer`. -/
structure Workshop where
  id : ℤ
  name : String
  workshop_type_id : ℤ
  workers_required : ℤ
deriving DecidableEq, Repr

/-- Row of table `product` (src/app/models.py): unique `name`, unique
`article`, foreign keys to `product_type` and `material_type`,
`min_partner_price : Numeric(12,2)`. -/
structure Product where
  id : ℤ
  name : String
  article : String
  product_type_id : ℤ
  material_type_id : ℤ
  min_partner_price : ℚ
deriving DecidableEq, Repr

/-- Row of join table `product_workshop` (src/app/models.py): foreign key to
`product` with `ondelete="CASCADE"`, foreign key to `workshop`, unique pair
`(product_id, workshop_id)`, `production_time_hours : Numeric(6,2)`. -/
structure ProductWorkshop where
  id : ℤ
  product_id : ℤ
  workshop_id : ℤ
  production_time_hours : ℚ
deriving DecidableEq, Repr

/-- The relational store: one list of rows per table. -/
structure Store where
  product_types : List ProductType
  material_types : List MaterialType
  workshop_types : List WorkshopType
  workshops : List Workshop
  products : List Product
  product_workshops : List ProductWorkshop
deriving DecidableEq, Repr

/-- Embedding of `db.get(models.ProductType, id)`. -/
def db_get_product_type (st : Store) (i : ℤ) : Option ProductType :=
  st.product_types.find? (fun r => r.id == i)

/-- Embedding of `db.get(models.MaterialType, id)`. -/
def db_get_material_type (st : Store) (i : ℤ) : Option MaterialType :=
  st.material_types.find? (fun r => r.id == i)

/-- Embedding of `db.get(models.Workshop, id)`. -/
def db_get_workshop (st : Store) (i : ℤ) : Option Workshop :=
  st.workshops.find? (fun r => r.id == i)

/-- Embedding of `db.get(models.Product, id)`. -/
def db_get_product (st : Store) (i : ℤ) : Option Product :=
  st.products.find? (fun r => r.id == i)

/-- Embedding of `calculate_raw_material_amount` (src/app/services.py).
`quantity` arrives as an `int` (`qty = int(quantity)` cannot fail on it),
`param1`/`param2` arrive as floats and are converted by `Decimal(str(...))`;
they are embedded as the exact rational values those decimals denote.  All
arithmetic in the source is Python `Decimal` (exact here), and
`to_integral_value(rounding=ROUND_CEILING)` is `⌈·⌉`.  The branch structure
mirrors the source line by line; every validation failure returns `-1`. -/
def calculate_raw_material_amount (db : Store) (product_type_id : ℤ)
    (material_type_id : ℤ) (quantity : ℤ) (param1 : ℚ) (param2 : ℚ) : ℤ :=
  if quantity ≤ 0 then -1
  else if param1 ≤ 0 ∨ param2 ≤ 0 then -1
  else
    match db_get_product_type db product_type_id,
          db_get_material_type db material_type_id with
    | some product_type, some material_type =>
        let coeff := product_type.coefficient
        let loss := material_type.loss_percent
        if coeff ≤ 0 ∨ loss < 0 then -1
        else
          let per_unit := param1 * param2 * coeff
          if per_unit ≤ 0 then -1
          else
            let total_without_losses := per_unit * (quantity : ℚ)
            let total_with_losses := total_without_losses * (1 + loss)
            if total_with_losses ≤ 0 then -1
            else ⌈total_with_losses⌉
    | _, _ => -1

/-- Under passing validation the calculator returns exactly the ceiling of the
exact decimal total with losses. -/
lemma calc_eq_ceil_aux (st : Store) (ptid mtid q : ℤ) (p1 p2 : ℚ)
    (pt : ProductType) (mt : MaterialType)
    (hpt : db_get_product_type st ptid = some pt)
    (hmt : db_get_material_type st mtid = some mt)
    (hq : 0 < q) (hp1 : 0 < p1) (hp2 : 0 < p2)
    (hc : 0 < pt.coefficient) (hl : 0 ≤ mt.loss_percent) :
    calculate_raw_material_amount st ptid mtid q p1 p2 =
      ⌈p1 * p2 * pt.coefficient * (q : ℚ) * (1 + mt.loss_percent)⌉ := by
  unfold calculate_raw_material_amount
  rw [if_neg (not_le.mpr hq),
    if_neg (by push_neg; exact ⟨hp1, hp2⟩), hpt, hmt]
  dsimp only
  rw [if_neg (by push_neg; exact ⟨hc, hl⟩)]
  have hpu : ¬ (p1 * p2 * pt.coefficient ≤ 0) :=
    not_le.mpr (mul_pos (mul_pos hp1 hp2) hc)
  rw [if_neg hpu]
  have htot : 0 < p1 * p2 * pt.coefficient * (q : ℚ) * (1 + mt.loss_percent) := by
    apply mul_pos
    · apply mul_pos (not_le.mp hpu)
      exact_mod_cast hq
    · linarith
  rw [if_neg (not_le.mpr htot)]

/-- Characterization of `calculate_raw_material_amount`: every run either
returns the sentinel `-1` or resolves both reference rows, passes every
validation, and returns the ceiling of the exact total with losses. -/
lemma calc_cases (st : Store) (ptid mtid q : ℤ) (p1 p2 : ℚ) :
    calculate_raw_material_amount st ptid mtid q p1 p2 = -1 ∨
    (∃ pt mt, db_get_product_type st ptid = some pt ∧
      db_get_material_type st mtid = some mt ∧
      0 < q ∧ 0 < p1 ∧ 0 < p2 ∧ 0 < pt.coefficient ∧ 0 ≤ mt.loss_percent ∧
      0 < p1 * p2 * pt.coefficient * (q : ℚ) * (1 + mt.loss_percent) ∧
      calculate_raw_material_amount st ptid mtid q p1 p2 =
        ⌈p1 * p2 * pt.coefficient * (q : ℚ) * (1 + mt.loss_percent)⌉) := by
  by_cases h1 : q ≤ 0
  · left; unfold calculate_raw_material_amount; rw [if_pos h1]
  by_cases h2 : p1 ≤ 0 ∨ p2 ≤ 0
  · left; unfold calculate_raw_material_amount; rw [if_neg h1, if_pos h2]
  rcases hpt : db_get_product_type st ptid with _ | pt
  · left
    unfold calculate_raw_material_amount
    rw [if_neg h1, if_neg h2, hpt]
  rcases hmt : db_get_material_type st mtid with _ | mt
  · left
    unfold calculate_raw_material_amount
    rw [if_neg h1, if_neg h2, hpt, hmt]
  by_cases h3 : pt.coefficient ≤ 0 ∨ mt.loss_percent < 0
  · left
    unfold calculate_raw_material_amount
    rw [if_neg h1, if_neg h2, hpt, hmt]
    dsimp only
    rw [if_pos h3]
  push_neg at h1 h2 h3
  have htot : 0 < p1 * p2 * pt.coefficient * (q : ℚ) * (1 + mt.loss_percent) := by
    apply mul_pos
    · apply mul_pos (mul_pos (mul_pos h2.1 h2.2) h3.1)
      exact_mod_cast h1
    · linarith [h3.2]
  right
  exact ⟨pt, mt, rfl, rfl, h1, h2.1, h2.2, h3.1, h3.2, htot,
    calc_eq_ceil_aux st ptid mtid q p1 p2 pt mt hpt hmt h1 h2.1 h2.2 h3.1 h3.2⟩

/-- C1: when the product type and material type exist, quantity is a positive
integer, `param1`, `param2` and the coefficient are positive and the loss
fraction is non-negative, the calculator returns exactly
`⌈param1 * param2 * coefficient * quantity * (1 + loss_percent)⌉`. -/
theorem calc_raw_material_matches_formula (st : Store) (ptid mtid q : ℤ)
    (p1 p2 : ℚ) (pt : ProductType) (mt : MaterialType)
    (hpt : db_get_product_type st ptid = some pt)
    (hmt : db_get_material_type st mtid = some mt)
    (hq : 0 < q) (hp1 : 0 < p1) (hp2 : 0 < p2)
    (hc : 0 < pt.coefficient) (hl : 0 ≤ mt.loss_percent) :
    calculate_raw_material_amount st ptid mtid q p1 p2 =
      ⌈p1 * p2 * pt.coefficient * (q : ℚ) * (1 + mt.loss_percent)⌉ :=
  calc_eq_ceil_aux st ptid mtid q p1 p2 pt mt hpt hmt hq hp1 hp2 hc hl

/-- Store with coefficient 2.00 and loss fraction 0.05 for the spec's worked
example. -/
def store_c1 : Store :=
  ⟨[⟨1, "chairs", 2⟩], [⟨1, "oak", 1/20⟩], [], [], [], []⟩

/-- Store with coefficient 1.00 and loss fraction 0 for the spec's rounding
boundary example (total 62.0001). -/
def store_c1b : Store :=
  ⟨[⟨1, "chairs", 1⟩], [⟨1, "oak", 0⟩], [], [], [], []⟩

/-- Witness for C1: coefficient 2.00, loss 0.05, quantity 10, params 1.5 and
2.0 give 63; and a total of 62.0001 (coefficient 1, loss 0, quantity 1,
params 6.20001 and 10) rounds up to 63. -/
theorem calc_raw_material_matches_formula_witness :
    calculate_raw_material_amount store_c1 1 1 10 (3/2) 2 = 63 ∧
    calculate_raw_material_amount store_c1b 1 1 1 (620001/100000) 10 = 63 := by
  constructor
  · rw [calc_raw_material_matches_formula store_c1 1 1 10 (3/2) 2
      ⟨1, "chairs", 2⟩ ⟨1, "oak", 1/20⟩ rfl rfl
      (by norm_num) (by norm_num) (by norm_num) (by norm_num) (by norm_num)]
    rw [show ((3:ℚ)/2 * 2 * 2 * ((10:ℤ) : ℚ) * (1 + 1/20)) = 63 by norm_num]
    rw [Int.ceil_eq_iff]
    norm_num
  · rw [calc_raw_material_matches_formula store_c1b 1 1 1 (620001/100000) 10
      ⟨1, "chairs", 1⟩ ⟨1, "oak", 0⟩ rfl rfl
      (by norm_num) (by norm_num) (by norm_num) (by norm_num) (by norm_num)]
    rw [show ((620001:ℚ)/100000 * 10 * 1 * ((1:ℤ) : ℚ) * (1 + 0)) =
      620001/10000 by norm_num]
    rw [Int.ceil_eq_iff]
    norm_num

/-- C3: every validation failure of the raw-material calculator (non-positive
quantity, non-positive `param1` or `param2`, unresolved product type or
material type, non-positive coefficient, negative loss fraction, non-positive
per-unit amount or total) yields the sentinel `-1`, and every non-sentinel
return value is a non-negative integer.  The embedded function is total, so no
exception can escape. -/
theorem calc_raw_material_validation_sentinel (st : Store) (ptid mtid q : ℤ)
    (p1 p2 : ℚ) :
    ((q ≤ 0 ∨ p1 ≤ 0 ∨ p2 ≤ 0 ∨
      db_get_product_type st ptid = none ∨ db_get_material_type st mtid = none ∨
      (∃ pt, db_get_product_type st ptid = some pt ∧ pt.coefficient ≤ 0) ∨
      (∃ mt, db_get_material_type st mtid = some mt ∧ mt.loss_percent < 0) ∨
      (∃ pt, db_get_product_type st ptid = some pt ∧
        p1 * p2 * pt.coefficient ≤ 0) ∨
      (∃ pt mt, db_get_product_type st ptid = some pt ∧
        db_get_material_type st mtid = some mt ∧
        p1 * p2 * pt.coefficient * (q : ℚ) * (1 + mt.loss_percent) ≤ 0)) →
      calculate_raw_material_amount st ptid mtid q p1 p2 = -1) ∧
    (calculate_raw_material_amount st ptid mtid q p1 p2 = -1 ∨
      0 ≤ calculate_raw_material_amount st ptid mtid q p1 p2) := by
  have hc := calc_cases st ptid mtid q p1 p2
  constructor
  · intro hfail
    rcases hc with h | ⟨pt, mt, hpt, hmt, hq, hp1, hp2, hco, hlo, htot, _⟩
    · exact h
    · exfalso
      rcases hfail with h | h | h | h | h | ⟨pt', h, h'⟩ | ⟨mt', h, h'⟩ |
        ⟨pt', h, h'⟩ | ⟨pt', mt', h, h', h''⟩
      · omega
      · linarith
      · linarith
      · rw [h] at hpt; cases hpt
      · rw [h] at hmt; cases hmt
      · rw [h] at hpt
        cases hpt
        linarith
      · rw [h] at hmt
        cases hmt
        linarith
      · rw [h] at hpt
        cases hpt
        have : 0 < p1 * p2 * pt.coefficient := mul_pos (mul_pos hp1 hp2) hco
        linarith
      · rw [h] at hpt
        rw [h'] at hmt
        cases hpt
        cases hmt
        linarith
  · rcases hc with h | ⟨pt, mt, _, _, _, _, _, _, _, htot, heq⟩
    · exact Or.inl h
    · right
      rw [heq]
      exact (Int.ceil_pos.mpr htot).le

/-- Witness for C3: on a store holding product type 1 and material type 1,
quantity 0, quantity -5, `param1 = 0`, `param2 = -1`, product type 99 and
material type 99 each yield the sentinel. -/
theorem calc_raw_material_validation_sentinel_witness :
    calculate_raw_material_amount store_c1 1 1 0 (3/2) 2 = -1 ∧
    calculate_raw_material_amount store_c1 1 1 (-5) (3/2) 2 = -1 ∧
    calculate_raw_material_amount store_c1 1 1 10 0 2 = -1 ∧
    calculate_raw_material_amount store_c1 1 1 10 (3/2) (-1) = -1 ∧
    calculate_raw_material_amount store_c1 99 1 10 (3/2) 2 = -1 ∧
    calculate_raw_material_amount store_c1 1 99 10 (3/2) 2 = -1 :=
  ⟨(calc_raw_material_validation_sentinel store_c1 1 1 0 (3/2) 2).1
      (Or.inl (by norm_num)),
    (calc_raw_material_validation_sentinel store_c1 1 1 (-5) (3/2) 2).1
      (Or.inl (by norm_num)),
    (calc_raw_material_validation_sentinel store_c1 1 1 10 0 2).1
      (Or.inr (Or.inl (by norm_num))),
    (calc_raw_material_validation_sentinel store_c1 1 1 10 (3/2) (-1)).1
      (Or.inr (Or.inr (Or.inl (by norm_num)))),
    (calc_raw_material_validation_sentinel store_c1 99 1 10 (3/2) 2).1
      (Or.inr (Or.inr (Or.inr (Or.inl rfl)))),
    (calc_raw_material_validation_sentinel store_c1 1 99 10 (3/2) 2).1
      (Or.inr (Or.inr (Or.inr (Or.inr (Or.inl rfl)))))⟩

/-- C9: the raw-material calculator is deterministic and depends on the store
only through the resolved coefficient and loss fraction: two stores agreeing on
those (for the given identifiers) produce equal results.  The embedded
function is a pure function of the store, so the call does not modify it. -/
theorem calc_raw_material_deterministic (st1 st2 : Store) (ptid mtid q : ℤ)
    (p1 p2 : ℚ)
    (hpt : (db_get_product_type st1 ptid).map ProductType.coefficient =
      (db_get_product_type st2 ptid).map ProductType.coefficient)
    (hmt : (db_get_material_type st1 mtid).map MaterialType.loss_percent =
      (db_get_material_type st2 mtid).map MaterialType.loss_percent) :
    calculate_raw_material_amount st1 ptid mtid q p1 p2 =
      calculate_raw_material_amount st2 ptid mtid q p1 p2 := by
  unfold calculate_raw_material_amount
  rcases e1 : db_get_product_type st1 ptid with _ | pt1 <;>
    rcases e2 : db_get_product_type st2 ptid with _ | pt2 <;>
      rcases e3 : db_get_material_type st1 mtid with _ | mt1 <;>
        rcases e4 : db_get_material_type st2 mtid with _ | mt2 <;>
          rw [e1, e2] at hpt <;> rw [e3, e4] at hmt <;> simp_all

/-- Store agreeing with `store_c1` on coefficient and loss fraction but with
different reference names. -/
def store_c9 : Store :=
  ⟨[⟨1, "armchairs", 2⟩], [⟨1, "pine", 1/20⟩], [], [], [], []⟩

/-- Witness for C9: the worked example computes the same result on two stores
that agree on coefficient 2.00 and loss 0.05. -/
theorem calc_raw_material_deterministic_witness :
    calculate_raw_material_amount store_c1 1 1 10 (3/2) 2 =
      calculate_raw_material_amount store_c9 1 1 10 (3/2) 2 :=
  calc_raw_material_deterministic store_c1 store_c9 1 1 10 (3/2) 2 rfl rfl

/-- C10: whenever the raw-material calculator does not return the sentinel
`-1`, its result is at least 1: validation requires the exact total with
losses to be strictly positive, and the ceiling of a strictly positive number
is at least 1. -/
theorem calc_raw_material_positive_when_valid (st : Store) (ptid mtid q : ℤ)
    (p1 p2 : ℚ)
    (h : calculate_raw_material_amount st ptid mtid q p1 p2 ≠ -1) :
    1 ≤ calculate_raw_material_amount st ptid mtid q p1 p2 := by
  rcases calc_cases st ptid mtid q p1 p2 with h' |
    ⟨pt, mt, _, _, _, _, _, _, _, htot, heq⟩
  · exact absurd h' h
  · rw [heq]
    have := Int.ceil_pos.mpr htot
    omega

/-- Witness for C10: the worked example is not the sentinel, and the theorem
yields that its value is at least 1. -/
theorem calc_raw_material_positive_when_valid_witness :
    1 ≤ calculate_raw_material_amount store_c1 1 1 10 (3/2) 2 := by
  have h63 : calculate_raw_material_amount store_c1 1 1 10 (3/2) 2 = 63 := by
    rw [calc_eq_ceil_aux store_c1 1 1 10 (3/2) 2
      ⟨1, "chairs", 2⟩ ⟨1, "oak", 1/20⟩ rfl rfl
      (by norm_num) (by norm_num) (by norm_num) (by norm_num) (by norm_num)]
    rw [show ((3:ℚ)/2 * 2 * 2 * ((10:ℤ) : ℚ) * (1 + 1/20)) = 63 by norm_num]
    rw [Int.ceil_eq_iff]
    norm_num
  exact calc_raw_material_positive_when_valid store_c1 1 1 10 (3/2) 2
    (by rw [h63]; norm_num)

/-- Power of two as a rational, for scaling in the binary64 model. -/
def pow2 (e : ℤ) : ℚ :=
  if 0 ≤ e then ((2:ℚ) ^ e.toNat) else 1 / (2:ℚ) ^ (-e).toNat

/-- Fuelled search for the binary exponent of `q ≥ 1`: counts halvings until
the value drops below 2. -/
def log2up : ℕ → ℚ → ℤ → ℤ
  | 0, _, acc => acc
  | f+1, q, acc => if q < 2 then acc else log2up f (q/2) (acc+1)

/-- Fuelled search for the binary exponent of `0 < q < 1`: counts doublings
until the value reaches 1. -/
def log2down : ℕ → ℚ → ℤ → ℤ
  | 0, _, acc => acc
  | f+1, q, acc => if 1 ≤ q then acc else log2down f (q*2) (acc-1)

/-- Binary exponent `e` of a positive rational: `2 ^ e ≤ q < 2 ^ (e + 1)` for
all magnitudes occurring in this development (fuel 128 covers them). -/
def floorLog2Pos (q : ℚ) : ℤ :=
  if 1 ≤ q then log2up 128 q 0 else log2down 128 q 0

/-- Round a rational to the nearest integer, ties to even. -/
def rneInt (m : ℚ) : ℤ :=
  if m - ⌊m⌋ < 1/2 then ⌊m⌋
  else if 1/2 < m - ⌊m⌋ then ⌊m⌋ + 1
  else if ⌊m⌋ % 2 = 0 then ⌊m⌋ else ⌊m⌋ + 1

/-- The IEEE-754 binary64 (Python `float`) value nearest to a non-negative
rational, as an exact rational: the significand is rounded to 53 bits with
ties to even.  Exponent range is irrelevant at the magnitudes used here. -/
def roundDouble (q : ℚ) : ℚ :=
  if q ≤ 0 then 0
  else
    let e := floorLog2Pos q
    let m := q * pow2 (52 - e)
    (rneInt m : ℚ) / pow2 (52 - e)

/-- Embedding of Python `sum(float(x) for x in xs)` (src/app/main.py line
790): each exact decimal is converted to binary64, and the running sum is
accumulated in binary64, rounding after every addition. -/
def fsum (xs : List ℚ) : ℚ :=
  xs.foldl (fun acc x => roundDouble (acc + roundDouble x)) 0

/-- Outcome of a JSON API handler: a payload, an `HTTPException` with status
400 (client error) or 404 (not found) and its detail string, or an unhandled
exception propagating out of the handler (HTTP 500). -/
inductive ApiOutcome (α : Type) where
  | ok : α → ApiOutcome α
  | clientError : String → ApiOutcome α
  | notFound : String → ApiOutcome α
  | serverError : ApiOutcome α
deriving DecidableEq, Repr

/-- Result of an HTML page handler relevant here: a redirect to the products
list with the `product_not_found` banner, or the rendered per-product
workshops page carrying the product, the ordered links and the total hours. -/
inductive UiPage where
  | redirectNotFound : String → UiPage
  | workshopsPage : Product → List ProductWorkshop → ℤ → UiPage
deriving DecidableEq, Repr

/-- All `ProductWorkshop` rows of a product, in store order: the relationship
`product.workshops` and the filter in the queries of src/app/main.py. -/
def product_workshop_links (st : Store) (product_id : ℤ) : List ProductWorkshop :=
  st.product_workshops.filter (fun l => l.product_id == product_id)

/-- Embedding of `GET /products/{product_id}/workshops`
(src/app/main.py, `get_product_workshops`): 404 when the product does not
exist, otherwise the product's link rows. -/
def get_product_workshops (st : Store) (product_id : ℤ) :
    ApiOutcome (List ProductWorkshop) :=
  match db_get_product st product_id with
  | none => .notFound "Product not found"
  | some _ => .ok (product_workshop_links st product_id)

/-- The product's links joined to `workshop` and ordered by workshop name,
as in the query of `ui_product_workshops` (src/app/main.py lines 782-788). -/
def links_by_workshop_name (st : Store) (product_id : ℤ) :
    List ProductWorkshop :=
  (((product_workshop_links st product_id).filterMap
      (fun l => (db_get_workshop st l.workshop_id).map (fun w => (w.name, l)))).insertionSort
    (fun a b => a.1 ≤ b.1)).map Prod.snd

/-- Embedding of `GET /ui/products/{product_id}/workshops`
(src/app/main.py, `ui_product_workshops`): a not-found redirect when the
product does not exist; otherwise the page with the name-ordered links and
`int(ceil(...))` of the binary64 float sum of their hours (line 790:
`sum(float(link.production_time_hours or 0.0) for link in links)`). -/
def ui_product_workshops (st : Store) (product_id : ℤ) : UiPage :=
  match db_get_product st product_id with
  | none => .redirectNotFound "/ui/products?status=product_not_found"
  | some product =>
      let links := links_by_workshop_name st product_id
      let total_hours_float := fsum (links.map (fun l => l.production_time_hours))
      .workshopsPage product links ⌈total_hours_float⌉

/-- Row of the `GET /product-cards` response (src/app/schemas.py,
`ProductCard`). -/
structure ProductCard where
  id : ℤ
  product_type : String
  name : String
  article : String
  min_partner_price : ℚ
  material_type : String
  production_time_hours : ℤ
deriving DecidableEq, Repr

/-- Total hours of one card (src/app/main.py, `list_product_cards`): the SQL
`coalesce(sum(production_time_hours), 0.0)` is computed exactly by PostgreSQL
on the `Numeric` column, converted once to binary64 by `float(row.total_hours
or 0.0)`, and ceiled by `int(ceil(...))`. -/
def card_total_hours (st : Store) (product_id : ℤ) : ℤ :=
  ⌈roundDouble (((product_workshop_links st product_id).map
      (fun l => l.production_time_hours)).sum)⌉

/-- Ordering of the card query: `order_by(ProductType.name, Product.name)`. -/
def card_le (c d : ProductCard) : Prop :=
  c.product_type < d.product_type ∨
    (c.product_type = d.product_type ∧ c.name ≤ d.name)

instance : DecidableRel card_le := fun c d => by
  unfold card_le; infer_instance

/-- Embedding of `GET /product-cards` (src/app/main.py,
`list_product_cards`): inner joins to `product_type` and `material_type`, a
card per product with its aggregated hours, ordered by type name then product
name. -/
def list_product_cards (st : Store) : List ProductCard :=
  (st.products.filterMap (fun p =>
      (db_get_product_type st p.product_type_id).bind (fun pt =>
        (db_get_material_type st p.material_type_id).map (fun mt =>
          ProductCard.mk p.id pt.name p.name p.article p.min_partner_price
            mt.name (card_total_hours st p.id))))).insertionSort card_le

/-- Evaluation rule for `pow2` at a natural-number exponent. -/
lemma pow2_ofNat (n : ℕ) : pow2 (n : ℤ) = 2 ^ n := by
  unfold pow2
  rw [if_pos (Int.natCast_nonneg n), Int.toNat_natCast]

/-- Evaluation rule for `roundDouble` when the fractional part of the scaled
significand is below one half (round down). -/
lemma roundDouble_eval_lt (q : ℚ) (e fl : ℤ) (s v : ℚ)
    (hq : ¬ q ≤ 0)
    (hlog : floorLog2Pos q = e)
    (hp : pow2 (52 - e) = s)
    (hfl : ⌊q * s⌋ = fl)
    (hr : q * s - fl < 1/2)
    (hv : ((fl : ℤ) : ℚ) / s = v) :
    roundDouble q = v := by
  unfold roundDouble
  rw [if_neg hq]
  dsimp only
  rw [hlog, hp]
  unfold rneInt
  rw [hfl, if_pos hr, hv]

/-- Evaluation rule for `roundDouble` when the fractional part of the scaled
significand is above one half (round up). -/
lemma roundDouble_eval_gt (q : ℚ) (e fl : ℤ) (s v : ℚ)
    (hq : ¬ q ≤ 0)
    (hlog : floorLog2Pos q = e)
    (hp : pow2 (52 - e) = s)
    (hfl : ⌊q * s⌋ = fl)
    (hr : 1/2 < q * s - fl)
    (hv : ((fl + 1 : ℤ) : ℚ) / s = v) :
    roundDouble q = v := by
  unfold roundDouble
  rw [if_neg hq]
  dsimp only
  rw [hlog, hp]
  unfold rneInt
  rw [hfl, if_neg (by linarith), if_pos hr, hv]

/-- Evaluation rule for `roundDouble` at an exact tie with an odd floor
(round up to the even neighbour). -/
lemma roundDouble_eval_tie_odd (q : ℚ) (e fl : ℤ) (s v : ℚ)
    (hq : ¬ q ≤ 0)
    (hlog : floorLog2Pos q = e)
    (hp : pow2 (52 - e) = s)
    (hfl : ⌊q * s⌋ = fl)
    (hr : q * s - fl = 1/2)
    (hodd : fl % 2 = 1)
    (hv : ((fl + 1 : ℤ) : ℚ) / s = v) :
    roundDouble q = v := by
  unfold roundDouble
  rw [if_neg hq]
  dsimp only
  rw [hlog, hp]
  unfold rneInt
  rw [hfl, if_neg (by linarith), if_neg (by linarith), if_neg (by omega), hv]

/-- The binary64 value of the decimal 0.1. -/
lemma rd_tenth : roundDouble (1/10) = 3602879701896397 / 2 ^ 55 := by
  apply roundDouble_eval_gt (1/10) (-4) 7205759403792793 (2 ^ 56)
  · norm_num
  · norm_num [floorLog2Pos, log2down]
  · rw [show (52 - (-4:ℤ)) = ((56:ℕ):ℤ) by norm_num, pow2_ofNat]
  · rw [Int.floor_eq_iff]
    norm_num
  · norm_num
  · norm_num

/-- The binary64 value of the decimal 0.2. -/
lemma rd_fifth : roundDouble (1/5) = 3602879701896397 / 2 ^ 54 := by
  apply roundDouble_eval_gt (1/5) (-3) 7205759403792793 (2 ^ 55)
  · norm_num
  · norm_num [floorLog2Pos, log2down]
  · rw [show (52 - (-3:ℤ)) = ((55:ℕ):ℤ) by norm_num, pow2_ofNat]
  · rw [Int.floor_eq_iff]
    norm_num
  · norm_num
  · norm_num

/-- The binary64 value of the decimal 0.3. -/
lemma rd_three_tenths : roundDouble (3/10) = 5404319552844595 / 2 ^ 54 := by
  apply roundDouble_eval_lt (3/10) (-2) 5404319552844595 (2 ^ 54)
  · norm_num
  · norm_num [floorLog2Pos, log2down]
  · rw [show (52 - (-2:ℤ)) = ((54:ℕ):ℤ) by norm_num, pow2_ofNat]
  · rw [Int.floor_eq_iff]
    norm_num
  · norm_num
  · norm_num

/-- Binary64 values are fixed by the conversion: the double for 0.1 rounds to
itself. -/
lemma rd_tenth_fix :
    roundDouble (3602879701896397 / 2 ^ 55) = 3602879701896397 / 2 ^ 55 := by
  apply roundDouble_eval_lt (3602879701896397 / 2 ^ 55) (-4) 7205759403792794
    (2 ^ 56)
  · norm_num
  · norm_num [floorLog2Pos, log2down]
  · rw [show (52 - (-4:ℤ)) = ((56:ℕ):ℤ) by norm_num, pow2_ofNat]
  · rw [Int.floor_eq_iff]
    norm_num
  · norm_num
  · norm_num

/-- Binary64 addition of the doubles for 0.1 and 0.2: the exact sum lands on
an odd tie and rounds up, giving the double above 0.3. -/
lemma rd_sum12 :
    roundDouble (10808639105689191 / 2 ^ 55) = 1351079888211149 / 2 ^ 52 := by
  apply roundDouble_eval_tie_odd (10808639105689191 / 2 ^ 55) (-2)
    5404319552844595 (2 ^ 54)
  · norm_num
  · norm_num [floorLog2Pos, log2down]
  · rw [show (52 - (-2:ℤ)) = ((54:ℕ):ℤ) by norm_num, pow2_ofNat]
  · rw [Int.floor_eq_iff]
    norm_num
  · norm_num
  · norm_num
  · norm_num

/-- Binary64 addition reaching 0.6: again an odd tie rounding up. -/
lemma rd_sum123 :
    roundDouble (10808639105689191 / 2 ^ 54) = 1351079888211149 / 2 ^ 51 := by
  apply roundDouble_eval_tie_odd (10808639105689191 / 2 ^ 54) (-1)
    5404319552844595 (2 ^ 53)
  · norm_num
  · norm_num [floorLog2Pos, log2down]
  · rw [show (52 - (-1:ℤ)) = ((53:ℕ):ℤ) by norm_num, pow2_ofNat]
  · rw [Int.floor_eq_iff]
    norm_num
  · norm_num
  · norm_num
  · norm_num

/-- Binary64 addition reaching 0.9: an odd tie rounding up once more. -/
lemma rd_sum1233 :
    roundDouble (16212958658533787 / 2 ^ 54) = 4053239664633447 / 2 ^ 52 := by
  apply roundDouble_eval_tie_odd (16212958658533787 / 2 ^ 54) (-1)
    8106479329266893 (2 ^ 53)
  · norm_num
  · norm_num [floorLog2Pos, log2down]
  · rw [show (52 - (-1:ℤ)) = ((53:ℕ):ℤ) by norm_num, pow2_ofNat]
  · rw [Int.floor_eq_iff]
    norm_num
  · norm_num
  · norm_num
  · norm_num

/-- The final binary64 addition: the exact sum exceeds 1 by half an ulp plus
the accumulated drift and rounds up to `1 + 2 ^ (-52)`. -/
lemma rd_sum_final :
    roundDouble (36028797018963973 / 2 ^ 55) = 4503599627370497 / 2 ^ 52 := by
  apply roundDouble_eval_gt (36028797018963973 / 2 ^ 55) 0 4503599627370496
    (2 ^ 52)
  · norm_num
  · norm_num [floorLog2Pos, log2up]
  · rw [show (52 - (0:ℤ)) = ((52:ℕ):ℤ) by norm_num, pow2_ofNat]
  · rw [Int.floor_eq_iff]
    norm_num
  · norm_num
  · norm_num

/-- The binary64 left fold of the hour values 0.1, 0.2, 0.3, 0.3, 0.1 (whose
exact decimal sum is 1.0) ends strictly above 1, at `1 + 2 ^ (-52)`. -/
lemma fsum_c2_eval :
    fsum [1/10, 1/5, 3/10, 3/10, 1/10] = 4503599627370497 / 2 ^ 52 := by
  unfold fsum
  simp only [List.foldl]
  rw [rd_tenth, rd_fifth, rd_three_tenths]
  rw [show ((0:ℚ) + 3602879701896397 / 2 ^ 55) = 3602879701896397 / 2 ^ 55 by
    norm_num]
  rw [rd_tenth_fix]
  rw [show ((3602879701896397 / 2 ^ 55 : ℚ) + 3602879701896397 / 2 ^ 54) =
    10808639105689191 / 2 ^ 55 by norm_num]
  rw [rd_sum12]
  rw [show ((1351079888211149 / 2 ^ 52 : ℚ) + 5404319552844595 / 2 ^ 54) =
    10808639105689191 / 2 ^ 54 by norm_num]
  rw [rd_sum123]
  rw [show ((1351079888211149 / 2 ^ 51 : ℚ) + 5404319552844595 / 2 ^ 54) =
    16212958658533787 / 2 ^ 54 by norm_num]
  rw [rd_sum1233]
  rw [show ((4053239664633447 / 2 ^ 52 : ℚ) + 3602879701896397 / 2 ^ 55) =
    36028797018963973 / 2 ^ 55 by norm_num]
  rw [rd_sum_final]

/-- Store exhibiting the float drift: one product routed through five
workshops named `w1` … `w5` with hours 0.1, 0.2, 0.3, 0.3, 0.1 — an exact
decimal total of 1.0 hours. -/
def store_c2 : Store :=
  ⟨[⟨1, "chairs", 2⟩],
   [⟨1, "oak", 1/20⟩],
   [⟨1, "assembly"⟩],
   [⟨1, "w1", 1, 1⟩, ⟨2, "w2", 1, 1⟩, ⟨3, "w3", 1, 1⟩, ⟨4, "w4", 1, 1⟩,
    ⟨5, "w5", 1, 1⟩],
   [⟨1, "table", "A100", 1, 1, 100⟩],
   [⟨1, 1, 1, 1/10⟩, ⟨2, 1, 2, 1/5⟩, ⟨3, 1, 3, 3/10⟩, ⟨4, 1, 4, 3/10⟩,
    ⟨5, 1, 5, 1/10⟩]⟩

/-- The ordered links of the product of `store_c2`: the joined pair list is
already sorted by workshop name, so the sort is the identity. -/
lemma links_c2_eval : links_by_workshop_name store_c2 1 =
    [⟨1, 1, 1, 1/10⟩, ⟨2, 1, 2, 1/5⟩, ⟨3, 1, 3, 3/10⟩, ⟨4, 1, 4, 3/10⟩,
     ⟨5, 1, 5, 1/10⟩] := by
  unfold links_by_workshop_name
  rw [show (product_workshop_links store_c2 1).filterMap
      (fun l => (db_get_workshop store_c2 l.workshop_id).map
        (fun w => (w.name, l))) =
      [("w1", (⟨1, 1, 1, 1/10⟩ : ProductWorkshop)),
       ("w2", (⟨2, 1, 2, 1/5⟩ : ProductWorkshop)),
       ("w3", (⟨3, 1, 3, 3/10⟩ : ProductWorkshop)),
       ("w4", (⟨4, 1, 4, 3/10⟩ : ProductWorkshop)),
       ("w5", (⟨5, 1, 5, 1/10⟩ : ProductWorkshop))] from rfl]
  haveI : IsTotal (String × ProductWorkshop) (fun a b => a.1 ≤ b.1) :=
    ⟨fun a b => le_total a.1 b.1⟩
  haveI : IsTrans (String × ProductWorkshop) (fun a b => a.1 ≤ b.1) :=
    ⟨fun _ _ _ hab hbc => le_trans hab hbc⟩
  rw [List.Sorted.insertionSort_eq]
  · rfl
  · refine List.sorted_cons.mpr ⟨fun b hb => ?_, List.sorted_cons.mpr
      ⟨fun b hb => ?_, List.sorted_cons.mpr ⟨fun b hb => ?_,
        List.sorted_cons.mpr ⟨fun b hb => ?_, List.sorted_singleton _⟩⟩⟩⟩ <;>
      fin_cases hb <;> (simp; decide)

/-- C2 (code bug): on `store_c2` the per-product workshops page computes the
total production time by summing binary64 floats (src/app/main.py line 790);
the float fold of 0.1 + 0.2 + 0.3 + 0.3 + 0.1 ends at `1 + 2 ^ (-52)` and the
page shows `⌈1 + 2 ^ (-52)⌉ = 2` hours, while the ceiling of the exact
decimal sum — what the spec requires — is `⌈1.0⌉ = 1`. -/
theorem ui_product_workshops_float_drift :
    ui_product_workshops store_c2 1 =
      UiPage.workshopsPage ⟨1, "table", "A100", 1, 1, 100⟩
        [⟨1, 1, 1, 1/10⟩, ⟨2, 1, 2, 1/5⟩, ⟨3, 1, 3, 3/10⟩, ⟨4, 1, 4, 3/10⟩,
         ⟨5, 1, 5, 1/10⟩] 2 ∧
    ⌈((product_workshop_links store_c2 1).map
        (fun l => l.production_time_hours)).sum⌉ = 1 := by
  constructor
  · unfold ui_product_workshops
    rw [show db_get_product store_c2 1 =
      some ⟨1, "table", "A100", 1, 1, 100⟩ from rfl]
    dsimp only
    rw [links_c2_eval]
    rw [show ([⟨1, 1, 1, 1/10⟩, ⟨2, 1, 2, 1/5⟩, ⟨3, 1, 3, 3/10⟩,
        ⟨4, 1, 4, 3/10⟩, ⟨5, 1, 5, 1/10⟩] : List ProductWorkshop).map
        (fun l => l.production_time_hours) =
        [1/10, 1/5, 3/10, 3/10, 1/10] from rfl]
    rw [fsum_c2_eval]
    rw [show (⌈(4503599627370497 / 2 ^ 52 : ℚ)⌉ : ℤ) = 2 by
      rw [Int.ceil_eq_iff]
      norm_num]
  · rw [show ((product_workshop_links store_c2 1).map
        (fun l => l.production_time_hours)) =
        [1/10, 1/5, 3/10, 3/10, 1/10] from rfl]
    rw [show (([1/10, 1/5, 3/10, 3/10, 1/10] : List ℚ)).sum = 1 by
      norm_num [List.sum_cons, List.sum_nil]]
    rw [show ((1:ℚ)) = ((1:ℤ) : ℚ) by norm_num, Int.ceil_intCast]

/-- C4: a product that exists and has no `ProductWorkshop` links gets 0 total
hours, with no error: it appears on the product-cards view with 0 hours, and
its workshops page renders with an empty link list and total 0. -/
theorem empty_links_zero_hours (st : Store) (pid : ℤ) (p : Product)
    (pt : ProductType) (mt : MaterialType)
    (hp : db_get_product st pid = some p)
    (hpt : db_get_product_type st p.product_type_id = some pt)
    (hmt : db_get_material_type st p.material_type_id = some mt)
    (hnl : product_workshop_links st p.id = []) :
    (ProductCard.mk p.id pt.name p.name p.article p.min_partner_price mt.name 0
      ∈ list_product_cards st) ∧
    ui_product_workshops st pid = UiPage.workshopsPage p [] 0 := by
  have hid : p.id = pid := by
    have := List.find?_some hp
    simpa using this
  have hco : card_total_hours st p.id = 0 := by
    unfold card_total_hours
    rw [hnl]
    rw [show (([] : List ProductWorkshop).map
      (fun l => l.production_time_hours)).sum = 0 from rfl]
    rw [show roundDouble 0 = 0 from rfl]
    exact Int.ceil_zero
  constructor
  · apply (List.mem_insertionSort card_le).mpr
    apply List.mem_filterMap.mpr
    refine ⟨p, List.mem_of_find?_eq_some hp, ?_⟩
    rw [hpt, hmt]
    dsimp only [Option.bind, Option.map]
    rw [hco]
  · unfold ui_product_workshops
    rw [hp]
    dsimp only
    rw [show links_by_workshop_name st pid = [] by
      unfold links_by_workshop_name
      rw [hid] at hnl
      rw [hnl]
      rfl]
    rw [show fsum (([] : List ProductWorkshop).map
      (fun l => l.production_time_hours)) = 0 from rfl]
    rw [show (⌈(0:ℚ)⌉ : ℤ) = 0 from Int.ceil_zero]

/-- Store with one product (type and material resolvable) and no links. -/
def store_c4 : Store :=
  ⟨[⟨1, "chairs", 2⟩], [⟨1, "oak", 1/20⟩], [], [],
   [⟨1, "stool", "S1", 1, 1, 50⟩], []⟩

/-- Witness for C4: the linkless product of `store_c4` gets a 0-hour card and
a workshops page with no links and total 0. -/
theorem empty_links_zero_hours_witness :
    (ProductCard.mk 1 "chairs" "stool" "S1" 50 "oak" 0
      ∈ list_product_cards store_c4) ∧
    ui_product_workshops store_c4 1 =
      UiPage.workshopsPage ⟨1, "stool", "S1", 1, 1, 50⟩ [] 0 :=
  empty_links_zero_hours store_c4 1 ⟨1, "stool", "S1", 1, 1, 50⟩
    ⟨1, "chairs", 2⟩ ⟨1, "oak", 1/20⟩ rfl rfl rfl rfl

/-- C5: a product identifier that resolves to no product is reported as
not-found — HTTP 404 with detail `Product not found` on the JSON API, and a
redirect to the not-found banner on the form surface — never as an empty or
zero-hour payload. -/
theorem product_not_found_reported (st : Store) (pid : ℤ)
    (h : db_get_product st pid = none) :
    get_product_workshops st pid = ApiOutcome.notFound "Product not found" ∧
    ui_product_workshops st pid =
      UiPage.redirectNotFound "/ui/products?status=product_not_found" := by
  unfold get_product_workshops ui_product_workshops
  rw [h]
  exact ⟨rfl, rfl⟩

/-- Witness for C5: identifier 42 resolves to no product of `store_c4`. -/
theorem product_not_found_reported_witness :
    get_product_workshops store_c4 42 = ApiOutcome.notFound "Product not found" ∧
    ui_product_workshops store_c4 42 =
      UiPage.redirectNotFound "/ui/products?status=product_not_found" :=
  product_not_found_reported store_c4 42 rfl

/-- Embedding of `GET /product-types` (src/app/main.py,
`list_product_types`): `order_by(ProductType.name)`. -/
def list_product_types (st : Store) : List ProductType :=
  st.product_types.insertionSort (fun a b => a.name ≤ b.name)

/-- Embedding of `GET /material-types` (src/app/main.py,
`list_material_types`): `order_by(MaterialType.name)`. -/
def list_material_types (st : Store) : List MaterialType :=
  st.material_types.insertionSort (fun a b => a.name ≤ b.name)

/-- Embedding of `GET /workshop-types` (src/app/main.py,
`list_workshop_types`): `order_by(WorkshopType.name)`. -/
def list_workshop_types (st : Store) : List WorkshopType :=
  st.workshop_types.insertionSort (fun a b => a.name ≤ b.name)

/-- Embedding of `GET /workshops` (src/app/main.py, `list_workshops`):
`db.query(models.Workshop).all()` — no `order_by`, rows in store order. -/
def list_workshops (st : Store) : List Workshop :=
  st.workshops

/-- Embedding of `GET /products` (src/app/main.py, `list_products`):
`db.query(models.Product).all()` — no `order_by`, rows in store order. -/
def list_products (st : Store) : List Product :=
  st.products

/-- Embedding of `GET /workshops/{workshop_id}` (src/app/main.py,
`get_workshop`). -/
def get_workshop (st : Store) (i : ℤ) : ApiOutcome Workshop :=
  match db_get_workshop st i with
  | none => .notFound "Workshop not found"
  | some ws => .ok ws

/-- Embedding of `GET /products/{product_id}` (src/app/main.py,
`get_product`). -/
def get_product (st : Store) (i : ℤ) : ApiOutcome Product :=
  match db_get_product st i with
  | none => .notFound "Product not found"
  | some p => .ok p

/-- Store whose workshop table holds names out of alphabetical order. -/
def store_c6 : Store :=
  ⟨[⟨1, "chairs", 2⟩], [⟨1, "oak", 1/20⟩], [⟨1, "assembly"⟩],
   [⟨1, "B paint shop", 1, 1⟩, ⟨2, "A cutting shop", 1, 2⟩],
   [⟨1, "table", "A100", 1, 1, 100⟩], []⟩

/-- Counterexample to C6: `GET /workshops` has no `order_by` and returns the
rows of `store_c6` in store order `["B paint shop", "A cutting shop"]`, which
is not alphabetically sorted. -/
theorem list_workshops_not_sorted :
    ¬ List.Sorted (· ≤ ·) ((list_workshops store_c6).map Workshop.name) := by
  intro h
  have hBA : ("B paint shop" : String) ≤ "A cutting shop" := by
    have h2 := List.sorted_cons.mp h
    exact h2.1 _ (by simp [list_workshops, store_c6])
  have hAB : ¬ (("B paint shop" : String) ≤ "A cutting shop") := by
    simp
    decide
  exact hAB hBA

/-- C6 (amended): the three reference read endpoints — product types,
material types, workshop types — return lists sorted alphabetically by name
(their queries carry `order_by(name)`), while `GET /workshops` and
`GET /products` return rows in store order with no ordering clause; the
single-record endpoints return a 404 not-found signal when the identifier is
absent. -/
theorem reference_lists_sorted_and_get_not_found :
    (∀ st : Store, List.Sorted (· ≤ ·)
      ((list_product_types st).map ProductType.name)) ∧
    (∀ st : Store, List.Sorted (· ≤ ·)
      ((list_material_types st).map MaterialType.name)) ∧
    (∀ st : Store, List.Sorted (· ≤ ·)
      ((list_workshop_types st).map WorkshopType.name)) ∧
    (∀ st : Store, list_workshops st = st.workshops) ∧
    (∀ st : Store, list_products st = st.products) ∧
    (∀ (st : Store) (i : ℤ), db_get_workshop st i = none →
      get_workshop st i = ApiOutcome.notFound "Workshop not found") ∧
    (∀ (st : Store) (i : ℤ), db_get_product st i = none →
      get_product st i = ApiOutcome.notFound "Product not found") := by
  refine ⟨?_, ?_, ?_, fun _ => rfl, fun _ => rfl, ?_, ?_⟩
  · intro st
    haveI : IsTotal ProductType (fun a b => a.name ≤ b.name) :=
      ⟨fun a b => le_total a.name b.name⟩
    haveI : IsTrans ProductType (fun a b => a.name ≤ b.name) :=
      ⟨fun _ _ _ hab hbc => le_trans hab hbc⟩
    exact List.pairwise_map.mpr (List.sorted_insertionSort _ _)
  · intro st
    haveI : IsTotal MaterialType (fun a b => a.name ≤ b.name) :=
      ⟨fun a b => le_total a.name b.name⟩
    haveI : IsTrans MaterialType (fun a b => a.name ≤ b.name) :=
      ⟨fun _ _ _ hab hbc => le_trans hab hbc⟩
    exact List.pairwise_map.mpr (List.sorted_insertionSort _ _)
  · intro st
    haveI : IsTotal WorkshopType (fun a b => a.name ≤ b.name) :=
      ⟨fun a b => le_total a.name b.name⟩
    haveI : IsTrans WorkshopType (fun a b => a.name ≤ b.name) :=
      ⟨fun _ _ _ hab hbc => le_trans hab hbc⟩
    exact List.pairwise_map.mpr (List.sorted_insertionSort _ _)
  · intro st i h
    unfold get_workshop
    rw [h]
  · intro st i h
    unfold get_product
    rw [h]

/-- Witness for C6 (amended): on `store_c6`, the sorted type lists and the
not-found signals of the single-record endpoints at identifier 42. -/
theorem reference_lists_sorted_and_get_not_found_witness :
    List.Sorted (· ≤ ·) ((list_product_types store_c6).map ProductType.name) ∧
    get_workshop store_c6 42 = ApiOutcome.notFound "Workshop not found" ∧
    get_product store_c6 42 = ApiOutcome.notFound "Product not found" :=
  ⟨reference_lists_sorted_and_get_not_found.1 store_c6,
    reference_lists_sorted_and_get_not_found.2.2.2.2.2.1 store_c6 42 rfl,
    reference_lists_sorted_and_get_not_found.2.2.2.2.2.2 store_c6 42 rfl⟩

/-- Request body of `POST /products` (src/app/schemas.py, `ProductCreate`). -/
structure ProductCreate where
  name : String
  article : String
  product_type_id : ℤ
  material_type_id : ℤ
  min_partner_price : ℚ
deriving DecidableEq, Repr

/-- Request body of `PUT /products/{id}` (src/app/schemas.py,
`ProductUpdate`): all fields optional, `exclude_unset` semantics; note the
schema has no `article` field. -/
structure ProductUpdate where
  name : Option String
  product_type_id : Option ℤ
  material_type_id : Option ℤ
  min_partner_price : Option ℚ
deriving DecidableEq, Repr

/-- Fresh surrogate key for an inserted product row. -/
def next_product_id (st : Store) : ℤ :=
  (st.products.map Product.id).foldr max 0 + 1

/-- Embedding of `POST /products` (src/app/main.py, `create_product`): the
row is inserted and committed; an `IntegrityError` (unique `name` or
`article` violated, or a foreign key unresolved) is caught, the transaction
rolled back, and HTTP 400 with the duplicate message returned. -/
def create_product (st : Store) (p : ProductCreate) :
    ApiOutcome Product × Store :=
  if (∃ r ∈ st.products, r.name = p.name ∨ r.article = p.article) ∨
      db_get_product_type st p.product_type_id = none ∨
      db_get_material_type st p.material_type_id = none then
    (.clientError "Product with this article or name already exists", st)
  else
    let prod : Product := ⟨next_product_id st, p.name, p.article,
      p.product_type_id, p.material_type_id, p.min_partner_price⟩
    (.ok prod, { st with products := st.products ++ [prod] })

/-- Embedding of `PUT /products/{product_id}` (src/app/main.py,
`update_product`): 404 when the product is missing; the set fields are merged
and committed with NO `except IntegrityError` handler, so a constraint
violation escapes as an unhandled exception (HTTP 500) and the session is
rolled back when it closes, leaving the store unchanged. -/
def update_product (st : Store) (product_id : ℤ) (upd : ProductUpdate) :
    ApiOutcome Product × Store :=
  match db_get_product st product_id with
  | none => (.notFound "Product not found", st)
  | some prod =>
      let merged : Product := ⟨prod.id, upd.name.getD prod.name, prod.article,
        upd.product_type_id.getD prod.product_type_id,
        upd.material_type_id.getD prod.material_type_id,
        upd.min_partner_price.getD prod.min_partner_price⟩
      if (∃ r ∈ st.products, r.id ≠ prod.id ∧ r.name = merged.name) ∨
          db_get_product_type st merged.product_type_id = none ∨
          db_get_material_type st merged.material_type_id = none then
        (.serverError, st)
      else
        let updated := st.products.map
          (fun r => if r.id == prod.id then merged else r)
        (.ok merged, { st with products := updated })

/-- Store with two products for the duplicate-name update. -/
def store_c7 : Store :=
  ⟨[⟨1, "chairs", 2⟩], [⟨1, "oak", 1/20⟩], [], [],
   [⟨1, "table", "A100", 1, 1, 100⟩, ⟨2, "desk", "A200", 1, 1, 200⟩], []⟩

/-- Counterexample to C7: renaming product 2 to the name of product 1
violates the unique `name` constraint, but `update_product` has no
`IntegrityError` handler, so the caller sees an unhandled server error — not
a duplicate-entity client error. -/
theorem update_product_duplicate_not_client_error :
    (update_product store_c7 2 ⟨some "table", none, none, none⟩).1 =
      ApiOutcome.serverError ∧
    (¬ ∃ msg, (update_product store_c7 2 ⟨some "table", none, none, none⟩).1 =
      ApiOutcome.clientError msg) := by
  have h : (update_product store_c7 2 ⟨some "table", none, none, none⟩).1 =
      ApiOutcome.serverError := by
    unfold update_product
    rw [show db_get_product store_c7 2 =
      some ⟨2, "desk", "A200", 1, 1, 200⟩ from rfl]
    dsimp only
    rw [if_pos]
    exact Or.inl ⟨⟨1, "table", "A100", 1, 1, 100⟩, by simp [store_c7], by
      simp, rfl⟩
  refine ⟨h, ?_⟩
  rintro ⟨msg, hmsg⟩
  rw [h] at hmsg
  cases hmsg

/-- C7 (amended): a create that would violate the `article` uniqueness
constraint fails with the duplicate-entity client error and leaves the store
unchanged (same row count); an update that violates a constraint also leaves
the store unchanged, but surfaces an unhandled server error instead of a
duplicate-entity client error, because `update_product` lacks the
`IntegrityError` handler that `create_product` has. -/
theorem duplicate_create_client_error_update_server_error :
    (∀ (st : Store) (p : ProductCreate),
      (∃ r ∈ st.products, r.article = p.article) →
        (create_product st p).1 = ApiOutcome.clientError
            "Product with this article or name already exists" ∧
          (create_product st p).2 = st ∧
          (create_product st p).2.products.length = st.products.length) ∧
    (∀ (st : Store) (i : ℤ) (u : ProductUpdate),
      (update_product st i u).1 = ApiOutcome.serverError →
        (update_product st i u).2 = st) := by
  constructor
  · rintro st p ⟨r, hr, ha⟩
    unfold create_product
    rw [if_pos (Or.inl ⟨r, hr, Or.inr ha⟩)]
    exact ⟨rfl, rfl, rfl⟩
  · intro st i u
    unfold update_product
    rcases hp : db_get_product st i with _ | prod
    · intro h
      cases h
    · dsimp only
      split_ifs with hcond
      · intro _
        rfl
      · intro h
        cases h

/-- Witness for C7 (amended): creating a product with the existing article
`A100` on `store_c7` yields the duplicate client error and an unchanged
store; the duplicate-name update on `store_c7` leaves the store unchanged. -/
theorem duplicate_create_client_error_update_server_error_witness :
    ((create_product store_c7 ⟨"bench", "A100", 1, 1, 10⟩).1 =
      ApiOutcome.clientError
        "Product with this article or name already exists" ∧
      (create_product store_c7 ⟨"bench", "A100", 1, 1, 10⟩).2 = store_c7 ∧
      (create_product store_c7 ⟨"bench", "A100", 1, 1, 10⟩).2.products.length =
        store_c7.products.length) ∧
    (update_product store_c7 2 ⟨some "table", none, none, none⟩).2 =
      store_c7 :=
  ⟨duplicate_create_client_error_update_server_error.1 store_c7
      ⟨"bench", "A100", 1, 1, 10⟩
      ⟨⟨1, "table", "A100", 1, 1, 100⟩, by simp [store_c7], rfl⟩,
    duplicate_create_client_error_update_server_error.2 store_c7 2
      ⟨some "table", none, none, none⟩ (by
        unfold update_product
        rw [show db_get_product store_c7 2 =
          some ⟨2, "desk", "A200", 1, 1, 200⟩ from rfl]
        dsimp only
        rw [if_pos]
        exact Or.inl ⟨⟨1, "table", "A100", 1, 1, 100⟩, by simp [store_c7],
          by simp, rfl⟩)⟩

/-- Embedding of `DELETE /products/{product_id}` (src/app/main.py,
`delete_product`): 404 when the product is missing.  Otherwise
`db.delete(product); db.commit()` runs under the ORM: the relationship
`Product.workshops` (src/app/models.py line 60) declares neither a delete
cascade nor `passive_deletes`, so at flush SQLAlchemy loads the product's
`product_workshop` rows and emits `UPDATE product_workshop SET
product_id = NULL` before the parent `DELETE` — the DDL-level
`ondelete="CASCADE"` is never reached.  `product_workshop.product_id` is
`nullable=False`, so for a product with at least one link row that UPDATE
violates NOT NULL and `db.commit()` raises an uncaught `IntegrityError`
(HTTP 500); the session close rolls back, leaving the store unchanged.  Only
a product with no link rows is actually deleted. -/
def delete_product (st : Store) (product_id : ℤ) : ApiOutcome Unit × Store :=
  match db_get_product st product_id with
  | none => (.notFound "Product not found", st)
  | some _ =>
      if ∃ l ∈ st.product_workshops, l.product_id = product_id then
        (.serverError, st)
      else
        (.ok (), { st with
          products := st.products.filter (fun r => r.id != product_id) })

/-- C8 (code bug): deleting product 1 of `store_c2` — which has five link
rows — does not cascade: the ORM's NULLing of the NOT NULL link foreign key
makes the commit raise an uncaught `IntegrityError` (HTTP 500), the store is
left unchanged, and every link row referencing the product remains.  The
declared `ondelete="CASCADE"` (and the spec's cascade requirement) is never
honored; only a linkless product, as in `store_c4`, is deleted at all. -/
theorem delete_product_with_links_fails :
    delete_product store_c2 1 = (ApiOutcome.serverError, store_c2) ∧
    (∃ l ∈ (delete_product store_c2 1).2.product_workshops,
      l.product_id = 1) ∧
    delete_product store_c4 1 =
      (ApiOutcome.ok (),
        ⟨[⟨1, "chairs", 2⟩], [⟨1, "oak", 1/20⟩], [], [], [], []⟩) := by
  have h : delete_product store_c2 1 = (ApiOutcome.serverError, store_c2) := by
    unfold delete_product
    rw [show db_get_product store_c2 1 =
      some ⟨1, "table", "A100", 1, 1, 100⟩ from rfl]
    dsimp only
    rw [if_pos ⟨⟨1, 1, 1, 1/10⟩, by simp [store_c2], rfl⟩]
  refine ⟨h, ?_, ?_⟩
  · rw [h]
    exact ⟨⟨1, 1, 1, 1/10⟩, by simp [store_c2], rfl⟩
  · unfold delete_product
    rw [show db_get_product store_c4 1 =
      some ⟨1, "stool", "S1", 1, 1, 50⟩ from rfl]
    dsimp only
    rw [if_neg (by simp [store_c4])]
    rfl

end Furniture
